import Mathlib

/-!
# Verification of the GOAT Scribe note-generation safety pipeline

Shallow embedding of the `goatnote_scribe` Python package:

* `guardrails.py` — the `EDGuardrails` rule engine (vital-sign ranges,
  medication dose limits, protocol mentions) and its regex scans,
* `scribe.py` — the `GOATScribe.__call__` pipeline orchestrator
  (empty-input check, optional audio transcription, PHI redaction,
  draft and critique completion requests, guardrail validation,
  FHIR bundle assembly) and the `wipe` lifecycle method,
* `cli.py` — the command-line `main` control flow around the pipeline.

External collaborators (the Presidio analyzer/anonymizer, the Whisper
transcriber and the OpenAI-compatible completion endpoint) are modelled
as oracle functions supplied in an `ExternalServices` record; the
pipeline additionally reports the ordered list of external calls it
issued, so that claims about what crosses the trust boundary are
statable.

Regex semantics: the source uses `re.finditer`/`re.search` with
`re.IGNORECASE` over a handful of fixed patterns.  Each pattern is
transliterated into an explicit scanner over `List Char` with the exact
greedy semantics of the pattern (the patterns contain no constructs
where greediness and backtracking diverge).  ASCII case folding,
digits and whitespace are used, matching the note text alphabet.
-/

/-- Python `\s` whitespace characters (ASCII range, which covers the
clinical note alphabet). -/
def isPyWs (c : Char) : Bool :=
  c = ' ' || c = '\t' || c = '\n' || c = '\x0b' || c = '\x0c' || c = '\r'

/-- The character class `[:\s]` used between a vital-sign label and its
numeric value. -/
def isSepChar (c : Char) : Bool :=
  c = ':' || isPyWs c

/-- Python `\w` (regex word character) for the ASCII alphabet: used for
the `\b` word boundaries of the protocol patterns. -/
def isWordChar (c : Char) : Bool :=
  c.isAlpha || c.isDigit || c = '_'

/-- ASCII lower-casing, the case folding relevant to `re.IGNORECASE` on
the patterns of `guardrails.py` (all pattern characters are ASCII). -/
def lowerChar (c : Char) : Char :=
  if 65 ≤ c.toNat ∧ c.toNat ≤ 90 then Char.ofNat (c.toNat + 32) else c

/-- ASCII upper-casing of a character, used to model `str.title()` on the
single-word lower-case medication names. -/
def upperChar (c : Char) : Char :=
  if 97 ≤ c.toNat ∧ c.toNat ≤ 122 then Char.ofNat (c.toNat - 32) else c

/-- `int(...)` on a nonempty string of ASCII digits. -/
def natOfDigits (ds : List Char) : Nat :=
  ds.foldl (fun a c => 10 * a + (c.toNat - 48)) 0

/-- A non-negative decimal value `num / 10 ^ exp`: the exact value of a
captured `\d+\.?\d*` token or of a table constant.  Python compares
these as floats; on the decimal literals occurring in the table and in
the notes under consideration the float comparison agrees with the
exact rational one, which is what the order below implements. -/
structure DecValue where
  num : Nat
  exp : Nat
deriving DecidableEq

/-- Exact order on decimal values, by cross-multiplication. -/
def decLE (a b : DecValue) : Prop :=
  a.num * 10 ^ b.exp ≤ b.num * 10 ^ a.exp

instance (a b : DecValue) : Decidable (decLE a b) :=
  inferInstanceAs (Decidable (_ ≤ _))

/-- Strict version of `decLE`. -/
def decLT (a b : DecValue) : Prop :=
  a.num * 10 ^ b.exp < b.num * 10 ^ a.exp

instance (a b : DecValue) : Decidable (decLT a b) :=
  inferInstanceAs (Decidable (_ < _))

/-- `float(...)` on a captured `\d+\.?\d*` token: all digits over
`10 ^ (number of fractional digits)`. -/
def decOfParts (intPart fracPart : List Char) : DecValue :=
  { num := natOfDigits (intPart ++ fracPart), exp := fracPart.length }

/-- Case-insensitive literal match of `pat` at the head of `s`:
returns the matched prefix (with its original casing) and the rest. -/
def matchCIAt : List Char → List Char → Option (List Char × List Char)
  | [], s => some ([], s)
  | _ :: _, [] => none
  | p :: ps, c :: cs =>
    if lowerChar c = lowerChar p then
      match matchCIAt ps cs with
      | some (m, rest) => some (c :: m, rest)
      | none => none
    else none

theorem matchCIAt_eq_some_iff (pat : List Char) :
    ∀ (s m rest : List Char),
      matchCIAt pat s = some (m, rest) ↔
        s = m ++ rest ∧ m.map lowerChar = pat.map lowerChar := by
  induction pat with
  | nil =>
    intro s m rest
    simp only [matchCIAt, Option.some.injEq, Prod.mk.injEq, List.map_nil,
      List.map_eq_nil_iff]
    constructor
    · rintro ⟨rfl, rfl⟩; simp
    · rintro ⟨rfl, rfl⟩; simp
  | cons p ps ih =>
    intro s m rest
    cases s with
    | nil =>
      simp only [matchCIAt]
      constructor
      · intro h; exact absurd h (by simp)
      · rintro ⟨h, hm⟩
        have : m = [] := by
          cases m with
          | nil => rfl
          | cons a as => simp at h
        subst this; simp at hm
    | cons c cs =>
      simp only [matchCIAt]
      by_cases hc : lowerChar c = lowerChar p
      · rw [if_pos hc]
        constructor
        · intro h
          cases hrec : matchCIAt ps cs with
          | none => rw [hrec] at h; exact absurd h (by simp)
          | some pr =>
            obtain ⟨m', rest'⟩ := pr
            rw [hrec] at h
            simp only [Option.some.injEq, Prod.mk.injEq] at h
            obtain ⟨hm, hr⟩ := h
            obtain ⟨h1, h2⟩ := (ih cs m' rest').mp hrec
            subst h1
            rw [← hm, ← hr]
            simp [h2, hc]
        · rintro ⟨h, hm⟩
          cases m with
          | nil => simp at hm
          | cons a as =>
            simp only [List.cons_append, List.cons.injEq] at h
            obtain ⟨rfl, h2⟩ := h
            simp only [List.map_cons, List.cons.injEq] at hm
            obtain ⟨_, hm2⟩ := hm
            rw [(ih cs as rest).mpr ⟨h2, hm2⟩]
      · rw [if_neg hc]
        constructor
        · intro h; exact absurd h (by simp)
        · rintro ⟨h, hm⟩
          cases m with
          | nil => simp at hm
          | cons a as =>
            simp only [List.cons_append, List.cons.injEq] at h
            simp only [List.map_cons, List.cons.injEq] at hm
            exact absurd (h.1 ▸ hm.1) hc

/-- A single `re.finditer` step: try a match at each position, emit the
result and resume after the matched text (all patterns below consume at
least one character per match, so `note.length` fuel is exact). -/
def scanWith {α : Type} (tryFn : List Char → Option (α × List Char)) :
    Nat → List Char → List α
  | 0, _ => []
  | _ + 1, [] => []
  | fuel + 1, c :: cs =>
    match tryFn (c :: cs) with
    | some (a, rest) => a :: scanWith tryFn fuel rest
    | none => scanWith tryFn fuel cs

/-- `re.finditer(pattern, note)`: all non-overlapping matches, scanning
left to right. -/
def reFindAll {α : Type} (tryFn : List Char → Option (α × List Char))
    (note : List Char) : List α :=
  scanWith tryFn note.length note

/-! ## guardrails.py — data model and rule tables -/

/-- `GuardrailViolation` dataclass: rule identifier, severity
(`"critical"` / `"warning"` / `"info"`), message, location. -/
structure GuardrailViolation where
  rule : String
  severity : String
  message : String
  location : String
deriving DecidableEq

/-- `VITAL_RANGES["heart_rate"]` (BPM). -/
def heart_rate_range : Nat × Nat := (20, 250)

/-- `VITAL_RANGES["blood_pressure_systolic"]` (mmHg). -/
def bp_systolic_range : Nat × Nat := (40, 250)

/-- `VITAL_RANGES["blood_pressure_diastolic"]` (mmHg). -/
def bp_diastolic_range : Nat × Nat := (20, 180)

/-- `VITAL_RANGES["temperature"]` (Fahrenheit), `(90.0, 108.0)`. -/
def temperature_range : DecValue × DecValue := (⟨900, 1⟩, ⟨1080, 1⟩)

/-- `MEDICATION_LIMITS`, in insertion order.  Each entry carries the
medication name, its maximum dose as an exact rational, and the decimal
spelling of that maximum used in the violation message. -/
def MEDICATION_LIMITS : List (String × DecValue × String) :=
  [("morphine", ⟨15, 0⟩, "15"),
   ("fentanyl", ⟨200, 0⟩, "200"),
   ("midazolam", ⟨10, 0⟩, "10"),
   ("lorazepam", ⟨4, 0⟩, "4"),
   ("epinephrine", ⟨1, 0⟩, "1"),
   ("atropine", ⟨3, 0⟩, "3"),
   ("adenosine", ⟨12, 0⟩, "12"),
   ("amiodarone", ⟨300, 0⟩, "300"),
   ("naloxone", ⟨10, 0⟩, "10"),
   ("aspirin", ⟨325, 0⟩, "325"),
   ("nitroglycerin", ⟨4, 1⟩, "0.4")]

/-- `CRITICAL_PROTOCOLS`. -/
def CRITICAL_PROTOCOLS : List String :=
  ["ACLS", "ATLS", "Trauma", "Sepsis", "Stroke", "STEMI", "DKA",
   "Status Epilepticus"]

/-! ## guardrails.py — `_check_vitals` -/

/-- One match of a `<label>[:\s]+(\d+)` heart-rate pattern: the captured
integer value and the full matched text (`match.group(0)`). -/
structure NumMatch where
  value : Nat
  text : List Char
deriving DecidableEq

/-- Try `<label>[:\s]+(\d+)` at the head of `s` (greedy, as the regex:
maximal separator run of length ≥ 1, then maximal digit run of
length ≥ 1). -/
def labelNumTry (label : List Char) (s : List Char) :
    Option (NumMatch × List Char) :=
  match matchCIAt label s with
  | none => none
  | some (m0, r0) =>
    let seps := r0.takeWhile isSepChar
    let r1 := r0.dropWhile isSepChar
    if seps.isEmpty then none
    else
      let digs := r1.takeWhile Char.isDigit
      let r2 := r1.dropWhile Char.isDigit
      if digs.isEmpty then none
      else some ({ value := natOfDigits digs, text := m0 ++ seps ++ digs }, r2)

/-- The three heart-rate patterns of `_check_vitals`, in source order. -/
def hr_patterns : List (List Char) :=
  ["HR".data, "heart rate".data, "pulse".data]

/-- All heart-rate pattern matches of a note, in the order the source
iterates them (pattern by pattern, each left to right). -/
def hr_matches (note : List Char) : List NumMatch :=
  (hr_patterns.map (fun lab => reFindAll (labelNumTry lab) note)).flatten

/-- The `critical` heart-rate violation built for an out-of-range match. -/
def mkHrViolation (m : NumMatch) : GuardrailViolation :=
  { rule := "vital_signs_heart_rate"
    severity := "critical"
    message := "Heart rate " ++ Nat.repr m.value ++
      " is outside valid range (" ++ Nat.repr heart_rate_range.1 ++ "-" ++
      Nat.repr heart_rate_range.2 ++ " BPM)"
    location := String.mk m.text }

/-- `if not (min_hr <= hr <= max_hr): violations.append(...)`. -/
def hrViolationOf (m : NumMatch) : Option GuardrailViolation :=
  if heart_rate_range.1 ≤ m.value ∧ m.value ≤ heart_rate_range.2 then none
  else some (mkHrViolation m)

/-- One match of `BP[:\s]+(\d+)/(\d+)`. -/
structure BpMatch where
  sys : Nat
  dia : Nat
  text : List Char
deriving DecidableEq

/-- Try `BP[:\s]+(\d+)/(\d+)` at the head of `s`. -/
def bpTry (s : List Char) : Option (BpMatch × List Char) :=
  match matchCIAt "BP".data s with
  | none => none
  | some (m0, r0) =>
    let seps := r0.takeWhile isSepChar
    let r1 := r0.dropWhile isSepChar
    if seps.isEmpty then none
    else
      let digs1 := r1.takeWhile Char.isDigit
      let r2 := r1.dropWhile Char.isDigit
      if digs1.isEmpty then none
      else
        match r2 with
        | '/' :: r3 =>
          let digs2 := r3.takeWhile Char.isDigit
          let r4 := r3.dropWhile Char.isDigit
          if digs2.isEmpty then none
          else some ({ sys := natOfDigits digs1, dia := natOfDigits digs2,
                       text := m0 ++ seps ++ digs1 ++ '/' :: digs2 }, r4)
        | _ => none

/-- Systolic then diastolic range checks for one blood-pressure match. -/
def bpViolationsOf (m : BpMatch) : List GuardrailViolation :=
  (if bp_systolic_range.1 ≤ m.sys ∧ m.sys ≤ bp_systolic_range.2 then []
   else [{ rule := "vital_signs_bp_systolic"
           severity := "critical"
           message := "Systolic BP " ++ Nat.repr m.sys ++
             " is outside valid range (" ++ Nat.repr bp_systolic_range.1 ++
             "-" ++ Nat.repr bp_systolic_range.2 ++ " mmHg)"
           location := String.mk m.text }]) ++
  (if bp_diastolic_range.1 ≤ m.dia ∧ m.dia ≤ bp_diastolic_range.2 then []
   else [{ rule := "vital_signs_bp_diastolic"
           severity := "critical"
           message := "Diastolic BP " ++ Nat.repr m.dia ++
             " is outside valid range (" ++ Nat.repr bp_diastolic_range.1 ++
             "-" ++ Nat.repr bp_diastolic_range.2 ++ " mmHg)"
           location := String.mk m.text }])

/-- Parse `(\d+\.?\d*)` at the head of `s`: the captured text, its value
as `float(...)`, and the rest. -/
def parseNumber (s : List Char) : Option (List Char × DecValue × List Char) :=
  let d1 := s.takeWhile Char.isDigit
  let r1 := s.dropWhile Char.isDigit
  if d1.isEmpty then none
  else
    match r1 with
    | '.' :: r2 =>
      let d2 := r2.takeWhile Char.isDigit
      let r3 := r2.dropWhile Char.isDigit
      some (d1 ++ '.' :: d2, decOfParts d1 d2, r3)
    | _ => some (d1, decOfParts d1 [], r1)

/-- One match of `<label>[:\s]+(\d+\.?\d*)` (temperature patterns):
value, captured value text (`match.group(1)`) and full matched text. -/
structure DecMatch where
  value : DecValue
  valueText : List Char
  text : List Char
deriving DecidableEq

/-- Try `<label>[:\s]+(\d+\.?\d*)` at the head of `s`. -/
def decNumTry (label : List Char) (s : List Char) :
    Option (DecMatch × List Char) :=
  match matchCIAt label s with
  | none => none
  | some (m0, r0) =>
    let seps := r0.takeWhile isSepChar
    let r1 := r0.dropWhile isSepChar
    if seps.isEmpty then none
    else
      match parseNumber r1 with
      | none => none
      | some (txt, v, r2) =>
        some ({ value := v, valueText := txt, text := m0 ++ seps ++ txt }, r2)

/-- The two temperature patterns of `_check_vitals`, in source order. -/
def temp_patterns : List (List Char) :=
  ["Temp".data, "Temperature".data]

/-- Temperature range check for one match.  The message interpolates the
captured value text (the source formats the parsed float; the two agree
on all inputs whose decimal spelling is in canonical float form). -/
def tempViolationOf (m : DecMatch) : Option GuardrailViolation :=
  if decLE temperature_range.1 m.value ∧ decLE m.value temperature_range.2 then none
  else some
    { rule := "vital_signs_temperature"
      severity := "critical"
      message := "Temperature " ++ String.mk m.valueText ++
        "F is outside valid range (90.0-108.0F)"
      location := String.mk m.text }

/-- `_check_vitals`: heart-rate patterns, then blood pressure, then
temperature patterns, appending violations in scan order. -/
def check_vitals (note : List Char) : List GuardrailViolation :=
  (hr_patterns.map
      (fun lab => (reFindAll (labelNumTry lab) note).filterMap hrViolationOf)).flatten
  ++ ((reFindAll bpTry note).map bpViolationsOf).flatten
  ++ (temp_patterns.map
      (fun lab => (reFindAll (decNumTry lab) note).filterMap tempViolationOf)).flatten

/-! ## guardrails.py — `_check_medications` -/

/-- One match of `<name>\s+(\d+\.?\d*)\s*(mg|mcg)?`: captured dose text
and value, the optional captured unit, and the full matched text. -/
structure MedMatch where
  doseText : List Char
  doseValue : DecValue
  unitChars : Option (List Char)
  text : List Char
deriving DecidableEq

/-- Try `<name>\s+(\d+\.?\d*)\s*(mg|mcg)?` at the head of `s`.  The
alternation tries `mg` before `mcg`, as the regex engine does. -/
def medTry (name : List Char) (s : List Char) : Option (MedMatch × List Char) :=
  match matchCIAt name s with
  | none => none
  | some (m0, r0) =>
    let ws1 := r0.takeWhile isPyWs
    let r1 := r0.dropWhile isPyWs
    if ws1.isEmpty then none
    else
      match parseNumber r1 with
      | none => none
      | some (dtxt, v, r2) =>
        let ws2 := r2.takeWhile isPyWs
        let r3 := r2.dropWhile isPyWs
        match matchCIAt "mg".data r3 with
        | some (u, r4) =>
          some ({ doseText := dtxt, doseValue := v, unitChars := some u,
                  text := m0 ++ ws1 ++ dtxt ++ ws2 ++ u }, r4)
        | none =>
          match matchCIAt "mcg".data r3 with
          | some (u, r4) =>
            some ({ doseText := dtxt, doseValue := v, unitChars := some u,
                    text := m0 ++ ws1 ++ dtxt ++ ws2 ++ u }, r4)
          | none =>
            some ({ doseText := dtxt, doseValue := v, unitChars := none,
                    text := m0 ++ ws1 ++ dtxt ++ ws2 }, r3)

/-- `unit = match.group(2) if match.group(2) else "mg"`. -/
def medUnitOf (m : MedMatch) : List Char :=
  match m.unitChars with
  | some u => u
  | none => "mg".data

/-- The dose compared against the table entry: converted from mcg to mg
(divided by 1000, i.e. the decimal exponent grows by 3) when the unit
lower-cases to `mcg`. -/
def medDoseOf (m : MedMatch) : DecValue :=
  if (medUnitOf m).map lowerChar = "mcg".data then
    { num := m.doseValue.num, exp := m.doseValue.exp + 3 }
  else m.doseValue

/-- `str.title()` restricted to its effect on the single-word lower-case
medication names of the table: upper-case the first character. -/
def pyTitle (s : String) : String :=
  match s.data with
  | [] => ""
  | c :: cs => String.mk (upperChar c :: cs)

/-- `if dose > max_dose: violations.append(...)` for one medication
match. -/
def medViolationOf (name : String) (maxDose : DecValue) (maxDoseText : String)
    (m : MedMatch) : Option GuardrailViolation :=
  if decLT maxDose (medDoseOf m) then
    some { rule := "medication_" ++ name ++ "_dose"
           severity := "critical"
           message := pyTitle name ++ " dose " ++ String.mk m.doseText ++
             String.mk (medUnitOf m) ++ " exceeds max safe dose (" ++
             maxDoseText ++ " mg)"
           location := String.mk m.text }
  else none

/-- `_check_medications`: scan the note once per table entry, in table
order. -/
def check_medications (note : List Char) : List GuardrailViolation :=
  (MEDICATION_LIMITS.map
    (fun e => (reFindAll (medTry e.1.data) note).filterMap
        (medViolationOf e.1 e.2.1 e.2.2))).flatten

/-! ## guardrails.py — `_check_protocols` -/

/-- `re.search(rf"\b<protocol>\b", note, re.IGNORECASE)` for a protocol
name that starts and ends with word characters (all table entries do):
scan every position, requiring a non-word character (or the string
boundary) on each side of a case-insensitive occurrence.  The Boolean
argument records whether the previous character is a word character. -/
def searchWholeWordAux (pat : List Char) : Bool → List Char → Bool
  | _, [] => false
  | prevW, c :: cs =>
    (!prevW &&
      (match matchCIAt pat (c :: cs) with
       | some (_, rest) =>
         match rest with
         | [] => true
         | r :: _ => !isWordChar r
       | none => false))
    || searchWholeWordAux pat (isWordChar c) cs

/-- Whole-word case-insensitive search anywhere in the note. -/
def searchWholeWord (pat : List Char) (note : List Char) : Bool :=
  searchWholeWordAux pat false note

/-- The `warning` violation built for a mentioned protocol. -/
def protocolViolation (p : String) : GuardrailViolation :=
  { rule := "protocol_" ++ String.mk (p.data.map lowerChar)
    severity := "warning"
    message := p ++ " protocol mentioned - ensure all steps documented and verified"
    location := p }

/-- `_check_protocols`: one violation per mentioned protocol, in table
order. -/
def check_protocols (note : List Char) : List GuardrailViolation :=
  CRITICAL_PROTOCOLS.filterMap
    (fun p => if searchWholeWord p.data note then some (protocolViolation p)
              else none)

/-! ## guardrails.py — `validate_note` and `format_violations` -/

/-- `EDGuardrails.validate_note`: run the enabled sub-checks, then
`is_safe = (no critical violations)`. -/
def validate_note (enableVitals enableMeds enableProtocols : Bool)
    (note : String) : Bool × List GuardrailViolation :=
  let nd := note.data
  let violations :=
    (if enableVitals then check_vitals nd else []) ++
    (if enableMeds then check_medications nd else []) ++
    (if enableProtocols then check_protocols nd else [])
  let criticalViolations := violations.filter (fun v => v.severity == "critical")
  (criticalViolations.length == 0, violations)

/-- `EDGuardrails.format_violations` (decorative emoji prefixes and the
quote characters around the location are elided from the format
strings; the grouping and line structure are as in the source). -/
def format_violations (violations : List GuardrailViolation) : String :=
  if violations.isEmpty then "No guardrail violations detected"
  else
    let critical := violations.filter (fun v => v.severity == "critical")
    let warnings := violations.filter (fun v => v.severity == "warning")
    let header := ["\nGUARDRAIL VIOLATIONS DETECTED: " ++
      Nat.repr violations.length ++ "\n"]
    let critLines :=
      if critical.isEmpty then []
      else ("CRITICAL (" ++ Nat.repr critical.length ++ "):") ::
        (critical.map (fun v =>
          ["  - " ++ v.message, "    Location: " ++ v.location])).flatten
    let warnLines :=
      if warnings.isEmpty then []
      else ("\nWARNINGS (" ++ Nat.repr warnings.length ++ "):") ::
        warnings.map (fun v => "  - " ++ v.message)
    String.intercalate "\n" (header ++ critLines ++ warnLines)

/-! ## scribe.py — data model -/

/-- A Presidio `RecognizerResult`: entity type and character offsets
(`end` is called `stop` here, `end` being reserved). -/
structure RecognizerResult where
  entityType : String
  start : Nat
  stop : Nat
deriving DecidableEq

/-- One role-tagged chat message. -/
structure ChatMessage where
  role : String
  content : String
deriving DecidableEq

/-- The payload of `client.chat.completions.create(...)`. -/
structure CompletionRequest where
  model : String
  messages : List ChatMessage
  temperature : ℚ
  maxTokens : Nat
deriving DecidableEq

/-- The configuration fields of `ScribeConfig` consumed by the pipeline,
with their source defaults. -/
structure ScribeConfig where
  modelName : String := "nvidia/llama-3.1-nemotron-nano-8b-v1"
  temperature : ℚ := 0.1
  maxTokens : Nat := 512
  enableReasoning : Bool := true
  phiLanguage : String := "en"
  enableGuardrails : Bool := true
  validateVitals : Bool := true
  validateMedications : Bool := true
  validateAclsProtocols : Bool := true

/-- The external collaborators of the pipeline (Whisper, the Presidio
analyzer and anonymizer, and the completion endpoint), as oracles. -/
structure ExternalServices where
  transcribe : List Nat → String
  analyze : String → String → List RecognizerResult
  anonymize : String → List RecognizerResult → String
  complete : CompletionRequest → String

/-- An external call issued by the pipeline, recorded in order. -/
inductive ExtCall where
  | transcribeCall (audio : List Nat)
  | analyzeCall (text language : String)
  | anonymizeCall (text : String) (results : List RecognizerResult)
  | completionCall (req : CompletionRequest)
deriving DecidableEq

/-- A JSON-like value, for the FHIR bundle dictionary. -/
inductive Json where
  | str : String → Json
  | arr : List Json → Json
  | obj : List (String × Json) → Json

/-- Field lookup in a JSON object. -/
def jLookup (j : Json) (key : String) : Option Json :=
  match j with
  | .obj fields => fields.lookup key
  | _ => none

/-- Remove the `timestamp` field of a JSON object (for stating what part
of the bundle may vary between invocations). -/
def dropTimestamp (j : Json) : Json :=
  match j with
  | .obj fields => .obj (fields.filter (fun kv => !(kv.1 == "timestamp")))
  | x => x

/-- The dictionary returned by `GOATScribe.__call__`. -/
structure ScribeResult where
  note : String
  phiRemoved : Nat
  redactionMap : List (String × Nat × Nat)
  fhirBundle : Json
  guardrailSafe : Bool
  guardrailViolationCount : Nat
  guardrailReport : Option String

/-- The `ValueError("Prompt cannot be empty")` raised at pipeline entry. -/
inductive ScribeError where
  | emptyPrompt
deriving DecidableEq

/-! ## scribe.py — request shaping -/

/-- The ED-specific system prompt of `_generate_draft`. -/
def ed_system_prompt : String :=
  "Emergency Medicine clinical documentation. Generate comprehensive ED note with:\n\nStructure:\n- Chief Complaint\n- History of Present Illness (onset, location, duration, character, aggravating/relieving factors, timing, severity)\n- Review of Systems (pertinent positives and negatives)\n- Past Medical/Surgical History\n- Medications & Allergies\n- Social History (ETOH, tobacco, drugs)\n- Physical Examination (by system, document all pertinent findings)\n- ED Course & Procedures (chronological, include vitals trends)\n- Labs & Imaging (results with interpretation)\n- Medical Decision Making (differential diagnosis, risk stratification, treatment rationale)\n- Disposition (discharge vs admit, follow-up, return precautions)\n\nCritical: Document time-sensitive decisions, rule-outs for high-risk conditions, and shared decision-making."

/-- The user-turn content of the drafting request: the de-identified
text, prefixed by the `/think` reasoning marker when enabled. -/
def draftUserContent (cfg : ScribeConfig) (deidPrompt : String) : String :=
  if cfg.enableReasoning then "/think\n" ++ deidPrompt else deidPrompt

/-- The completion request issued by `_generate_draft`. -/
def draftRequest (cfg : ScribeConfig) (deidPrompt : String) : CompletionRequest :=
  { model := cfg.modelName
    messages := [{ role := "system", content := ed_system_prompt },
                 { role := "user", content := draftUserContent cfg deidPrompt }]
    temperature := cfg.temperature
    maxTokens := cfg.maxTokens }

/-- The f-string `critique_prompt` of `_critique_draft`, a function of
the draft alone. -/
def critiqueUserContent (draft : String) : String :=
  "Clinical documentation review. Verify this ED note for:\n\n1. Medical Accuracy: Check vitals, medications, procedures\n2. Completeness: All required ED sections present\n3. High-Risk Rule-Outs: Documented (MI, PE, stroke, sepsis, etc.)\n4. Medical Decision Making: Clear rationale for disposition\n5. Medical-Legal: Return precautions, informed consent documented\n\nDraft:\n"
  ++ draft ++ "\n\nProvide improved version with any corrections:"

/-- The completion request issued by `_critique_draft`: temperature is
fixed at 0. -/
def critiqueRequest (cfg : ScribeConfig) (draft : String) : CompletionRequest :=
  { model := cfg.modelName
    messages := [{ role := "system",
                   content := "Clinical documentation reviewer. Expert in ED workflows and medical-legal standards." },
                 { role := "user", content := critiqueUserContent draft }]
    temperature := 0
    maxTokens := cfg.maxTokens }

/-! ## scribe.py — `__call__` -/

/-- Python `str.strip()`. -/
def pyStrip (s : List Char) : List Char :=
  ((s.dropWhile isPyWs).reverse.dropWhile isPyWs).reverse

/-- `not prompt or not prompt.strip()`: the entry check of `__call__`. -/
def promptIsBlank (p : String) : Bool :=
  p.data.isEmpty || (pyStrip p.data).isEmpty

/-- The de-identified text: `anonymizer.anonymize(text, analyzer.analyze(text, language)).text`. -/
def deidOf (env : ExternalServices) (cfg : ScribeConfig) (text : String) : String :=
  env.anonymize text (env.analyze text cfg.phiLanguage)

/-- `datetime.utcnow().isoformat() + "Z"`; the clock reading is the
`now` oracle argument. -/
def fhirTimestamp (now : String) : String := now ++ "Z"

/-- `GOATScribe._to_fhir`: the FHIR R4 document bundle dictionary. -/
def to_fhir (note : String) (patientId : String) (now : String) : Json :=
  .obj [("resourceType", .str "Bundle"),
        ("type", .str "document"),
        ("timestamp", .str (fhirTimestamp now)),
        ("entry", .arr [
          .obj [("fullUrl", .str ("Patient/" ++ patientId)),
                ("resource", .obj [("resourceType", .str "Patient"),
                                   ("id", .str patientId)])],
          .obj [("resource", .obj [("resourceType", .str "DocumentReference"),
                                   ("status", .str "current"),
                                   ("content", .arr [
                                     .obj [("attachment", .obj [
                                       ("contentType", .str "text/plain"),
                                       ("data", .str note)])]])])]])]

/-- `GOATScribe.__call__`: empty-prompt check, optional transcription
(`if audio:` is false for `None` and for empty bytes), PHI analysis and
anonymization, draft and critique completion calls, guardrail
validation, FHIR assembly.  Returns the result (or the raised error)
together with the ordered list of external calls issued. -/
def callScribe (env : ExternalServices) (cfg : ScribeConfig) (prompt : String)
    (audio : Option (List Nat)) (patientId : String) (now : String) :
    Except ScribeError ScribeResult × List ExtCall :=
  if promptIsBlank prompt then (.error .emptyPrompt, [])
  else
    let pt :=
      match audio with
      | some a => if a.isEmpty then (prompt, ([] : List ExtCall))
                  else (env.transcribe a, [ExtCall.transcribeCall a])
      | none => (prompt, [])
    let prompt2 := pt.1
    let phiResults := env.analyze prompt2 cfg.phiLanguage
    let deidPrompt := env.anonymize prompt2 phiResults
    let dReq := draftRequest cfg deidPrompt
    let draft := env.complete dReq
    let cReq := critiqueRequest cfg draft
    let finalNote := env.complete cReq
    let g :=
      if cfg.enableGuardrails then
        let r := validate_note cfg.validateVitals cfg.validateMedications
          cfg.validateAclsProtocols finalNote
        (r.1, r.2, some (format_violations r.2))
      else (true, ([] : List GuardrailViolation), none)
    (.ok { note := finalNote
           phiRemoved := phiResults.length
           redactionMap := phiResults.map (fun r => (r.entityType, r.start, r.stop))
           fhirBundle := to_fhir finalNote patientId now
           guardrailSafe := g.1
           guardrailViolationCount := g.2.1.length
           guardrailReport := g.2.2 },
     pt.2 ++ [ExtCall.analyzeCall prompt2 cfg.phiLanguage,
              ExtCall.anonymizeCall prompt2 phiResults,
              ExtCall.completionCall dReq,
              ExtCall.completionCall cReq])

/-- The completion requests among a list of external calls. -/
def completionRequestsOf (trace : List ExtCall) : List CompletionRequest :=
  trace.filterMap (fun e =>
    match e with
    | .completionCall r => some r
    | _ => none)

/-- The user-turn contents of a completion request. -/
def userContentsOf (req : CompletionRequest) : List String :=
  req.messages.filterMap (fun m =>
    if m.role == "user" then some m.content else none)

/-! ## scribe.py — `wipe`, and cli.py — `main` -/

/-- The transient handles owned by a `GOATScribe` instance (the model
client and the lazily loaded Whisper model), abstracted to opaque
identifiers. -/
structure ScribeState where
  client : Option Nat
  whisperModel : Option Nat
deriving DecidableEq

/-- `GOATScribe.wipe`: release both handles (the CUDA cache drain and
double garbage collection have no observable effect on this state). -/
def wipe (_s : ScribeState) : ScribeState :=
  { client := none, whisperModel := none }

/-- The observable actions of `cli.main`, in order.  Console output is
reduced to an event alphabet; the FHIR upload payload is elided. -/
inductive CliEvent where
  | printedNote (note : String)
  | printedStats (chars phiRemoved : Nat)
  | printedSafe
  | printedViolationCount (n : Nat)
  | printedReport (report : String)
  | exportedBundle
  | calledWipe
  | printedError
deriving DecidableEq

/-- `cli.main` from the `try:` statement on (argument parsing and stdin
fallback are outside the modelled scope): run the pipeline; on success
print the note and statistics, report guardrails, optionally export,
then call `scribe.wipe()`; on any raised error print it and return 1.
Returns the exit code and the events, in order. -/
def cliMain (env : ExternalServices) (cfg : ScribeConfig)
    (clinicalText patientId : String) (showGuardrails exportFhir : Bool)
    (now : String) : Nat × List CliEvent :=
  match callScribe env cfg clinicalText none patientId now with
  | (.ok r, _) =>
    let gEvents :=
      if r.guardrailSafe then [CliEvent.printedSafe]
      else CliEvent.printedViolationCount r.guardrailViolationCount ::
        (if showGuardrails then
          (match r.guardrailReport with
           | some rep => [CliEvent.printedReport rep]
           | none => [])
         else [])
    let exportEvents := if exportFhir then [CliEvent.exportedBundle] else []
    (0, CliEvent.printedNote r.note ::
        CliEvent.printedStats r.note.length r.phiRemoved ::
        gEvents ++ exportEvents ++ [CliEvent.calledWipe])
  | (.error _, _) => (1, [CliEvent.printedError])

/-! ## Oracle instantiations used by concrete witnesses -/

/-- Inert collaborators: no PHI found, identity anonymization, empty
completions. -/
def stubServices : ExternalServices :=
  { transcribe := fun _ => "transcribed audio"
    analyze := fun _ _ => []
    anonymize := fun t _ => t
    complete := fun _ => "" }

/-- Collaborators whose completion endpoint returns a note with an
out-of-range heart rate, so that guardrail validation flags it. -/
def unsafeNoteServices : ExternalServices :=
  { stubServices with complete := fun _ => "HR: 300" }

/-- Collaborators whose anonymizer replaces every input by a fixed
placeholder, so distinct raw inputs de-identify identically. -/
def redactAllServices : ExternalServices :=
  { stubServices with anonymize := fun _ _ => "<REDACTED>" }

/-! ## Helper lemmas -/

theorem pyStrip_eq_nil_iff (l : List Char) :
    pyStrip l = [] ↔ ∀ c ∈ l, isPyWs c = true := by
  unfold pyStrip
  rw [List.reverse_eq_nil_iff, List.dropWhile_eq_nil_iff]
  constructor
  · intro h c hc
    by_cases hmem : c ∈ l.dropWhile isPyWs
    · exact h c (List.mem_reverse.mpr hmem)
    · have hsplit := List.takeWhile_append_dropWhile (p := isPyWs) (l := l)
      rw [← hsplit] at hc
      rcases List.mem_append.mp hc with h1 | h2
      · exact List.mem_takeWhile_imp h1
      · exact absurd h2 hmem
  · intro h c hc
    rw [List.mem_reverse] at hc
    exact h c (List.Sublist.mem hc (List.dropWhile_sublist _))

theorem promptIsBlank_eq_true_iff (p : String) :
    promptIsBlank p = true ↔ p.data.all isPyWs = true := by
  unfold promptIsBlank
  simp only [Bool.or_eq_true, List.isEmpty_iff, List.all_eq_true,
    pyStrip_eq_nil_iff]
  constructor
  · rintro (h | h)
    · intro c hc; rw [h] at hc; exact absurd hc (List.not_mem_nil c)
    · exact h
  · exact Or.inr

/-! ## C3 — `is_safe` is exactly the absence of critical violations -/

/-- C3: for every note text (and any combination of sub-check enable
flags), `validate_note` returns `is_safe = true` iff the violation list
it returns contains no entry of severity `critical`; in particular an
empty list gives `is_safe = true`, and `warning`/`info` entries never
change `is_safe`. -/
theorem is_safe_iff_no_critical (ev em ep : Bool) (note : String) :
    (validate_note ev em ep note).1 = true ↔
      ¬ ∃ v ∈ (validate_note ev em ep note).2, v.severity = "critical" := by
  unfold validate_note
  simp only [beq_iff_eq, Nat.beq_eq_true_eq, List.length_eq_zero]
  constructor
  · intro h
    rintro ⟨v, hv, hcrit⟩
    have : v ∈ ([] : List GuardrailViolation) := by
      rw [← h]; exact List.mem_filter.mpr ⟨hv, by simp [hcrit]⟩
    exact absurd this (List.not_mem_nil v)
  · intro h
    apply List.filter_eq_nil_iff.mpr
    intro v hv
    simp only [beq_iff_eq]
    exact fun hc => h ⟨v, hv, hc⟩

/-! ## C9 — FHIR bundle shape -/

/-- C9: for every note text and patient identifier, `_to_fhir` returns a
bundle with resourceType `Bundle` and type `document` whose entry list
has exactly two elements — a Patient entry with the given identifier and
a DocumentReference entry embedding the note as plain text — and, apart
from the timestamp field, the bundle is the same for any two clock
readings, i.e. a deterministic function of note and patient identifier. -/
theorem fhir_bundle_shape (note patientId t1 t2 : String) :
    jLookup (to_fhir note patientId t1) "resourceType" = some (Json.str "Bundle") ∧
    jLookup (to_fhir note patientId t1) "type" = some (Json.str "document") ∧
    jLookup (to_fhir note patientId t1) "timestamp" =
      some (Json.str (fhirTimestamp t1)) ∧
    jLookup (to_fhir note patientId t1) "entry" = some (Json.arr
      [Json.obj [("fullUrl", Json.str ("Patient/" ++ patientId)),
                 ("resource", Json.obj [("resourceType", Json.str "Patient"),
                                        ("id", Json.str patientId)])],
       Json.obj [("resource", Json.obj
         [("resourceType", Json.str "DocumentReference"),
          ("status", Json.str "current"),
          ("content", Json.arr [Json.obj [("attachment", Json.obj
            [("contentType", Json.str "text/plain"),
             ("data", Json.str note)])]])])]]) ∧
    dropTimestamp (to_fhir note patientId t1) =
      dropTimestamp (to_fhir note patientId t2) :=
  ⟨rfl, rfl, rfl, rfl, rfl⟩

/-! ## C7 — empty input rejected at pipeline entry -/

/-- C7: calling the pipeline entry point with text that is empty or
whitespace-only (which is exactly what the `not prompt or not
prompt.strip()` check detects, third conjunct) raises the empty-input
error with no external call issued; text containing a non-whitespace
character never trips this check, and the invocation returns a result. -/
theorem empty_input_rejected_at_entry (env : ExternalServices)
    (cfg : ScribeConfig) (p : String) (audio : Option (List Nat))
    (patientId now : String) :
    (promptIsBlank p = true →
      callScribe env cfg p audio patientId now =
        (Except.error ScribeError.emptyPrompt, [])) ∧
    (promptIsBlank p = false →
      ∃ r, (callScribe env cfg p audio patientId now).1 = Except.ok r) ∧
    (promptIsBlank p = true ↔ p.data.all isPyWs = true) := by
  refine ⟨fun h => ?_, fun h => ?_, promptIsBlank_eq_true_iff p⟩
  · simp [callScribe, h]
  · simp only [callScribe, h, Bool.false_eq_true, if_false]
    exact ⟨_, rfl⟩

/-- Witness for C7 at the whitespace-only prompt `"  "` and the
non-blank prompt `"chest pain"`. -/
theorem empty_input_rejected_at_entry_witness :
    callScribe stubServices {} "  " none "anon-001" "T" =
        (Except.error ScribeError.emptyPrompt, []) ∧
    ∃ r, (callScribe stubServices {} "chest pain" none "anon-001" "T").1 =
        Except.ok r :=
  ⟨(empty_input_rejected_at_entry stubServices {} "  " none "anon-001" "T").1
      (by decide),
   (empty_input_rejected_at_entry stubServices {} "chest pain" none "anon-001"
      "T").2.1 (by decide)⟩

/-! ## C10 — audio replaces the text, but the blank check is on the text -/

/-- C10: when non-empty audio bytes are supplied, the caller's text
argument is discarded entirely — any two non-blank texts give the
identical invocation outcome, external calls included, because the
transcription replaces the text before redaction — and yet the
emptiness check is applied to the original text argument, so a call
with audio but blank text still fails with the empty-input error. -/
theorem audio_discards_text_but_blank_check_uses_text
    (env : ExternalServices) (cfg : ScribeConfig) (p1 p2 : String)
    (a : List Nat) (patientId now : String) (ha : a ≠ []) :
    (promptIsBlank p1 = false → promptIsBlank p2 = false →
      callScribe env cfg p1 (some a) patientId now =
        callScribe env cfg p2 (some a) patientId now) ∧
    (promptIsBlank p1 = true →
      callScribe env cfg p1 (some a) patientId now =
        (Except.error ScribeError.emptyPrompt, [])) := by
  have haa : a.isEmpty = false := by
    cases a with
    | nil => exact absurd rfl ha
    | cons x xs => rfl
  constructor
  · intro h1 h2
    simp [callScribe, h1, h2, haa]
  · intro h1
    simp [callScribe, h1]

/-- Witness for C10: audio `[1]` with the distinct non-blank texts `"x"`
and `"y"`, and with the whitespace-only text `" "`. -/
theorem audio_discards_text_but_blank_check_uses_text_witness :
    (callScribe stubServices {} "x" (some [1]) "anon-001" "T" =
      callScribe stubServices {} "y" (some [1]) "anon-001" "T") ∧
    (callScribe stubServices {} " " (some [1]) "anon-001" "T" =
      (Except.error ScribeError.emptyPrompt, [])) :=
  ⟨(audio_discards_text_but_blank_check_uses_text stubServices {} "x" "y" [1]
      "anon-001" "T" (by decide)).1 (by decide) (by decide),
   (audio_discards_text_but_blank_check_uses_text stubServices {} " " "y" [1]
      "anon-001" "T" (by decide)).2 (by decide)⟩

/-! ## C1 — drafting and critique requests are built only from the
de-identified output -/

/-- C1: for every pipeline invocation, the only completion requests
issued are the drafting request, whose single user turn is the
anonymizer output optionally prefixed by the fixed `/think` marker, and
the critique request, whose single user turn is the fixed review
template around the draft returned for the drafting request; two
invocations whose anonymizer outputs coincide issue identical
completion requests, so the caller's raw text influences those requests
only through the de-identified output. -/
theorem pipeline_requests_from_deidentified_only (env : ExternalServices)
    (cfg : ScribeConfig) (p1 p2 : String) (patientId now : String)
    (h1 : promptIsBlank p1 = false) (h2 : promptIsBlank p2 = false) :
    (completionRequestsOf (callScribe env cfg p1 none patientId now).2 =
      [draftRequest cfg (deidOf env cfg p1),
       critiqueRequest cfg (env.complete (draftRequest cfg (deidOf env cfg p1)))]) ∧
    (userContentsOf (draftRequest cfg (deidOf env cfg p1)) =
      [draftUserContent cfg (deidOf env cfg p1)]) ∧
    (∀ draft, userContentsOf (critiqueRequest cfg draft) =
      [critiqueUserContent draft]) ∧
    (deidOf env cfg p1 = deidOf env cfg p2 →
      completionRequestsOf (callScribe env cfg p1 none patientId now).2 =
        completionRequestsOf (callScribe env cfg p2 none patientId now).2) := by
  refine ⟨?_, rfl, fun draft => rfl, ?_⟩
  · simp [callScribe, h1, completionRequestsOf, deidOf]
  · intro hdeid
    simp only [callScribe, h1, h2, Bool.false_eq_true, if_false,
      completionRequestsOf]
    simp only [deidOf] at hdeid
    simp [hdeid]

/-- Witness for C1: with an anonymizer that maps every input to the
fixed placeholder, the invocations for the two distinct raw texts issue
identical completion requests. -/
theorem pipeline_requests_from_deidentified_only_witness :
    completionRequestsOf
        (callScribe redactAllServices {} "John Smith, 45M, chest pain" none
          "anon-001" "T").2 =
      completionRequestsOf
        (callScribe redactAllServices {} "Jane Doe, fever" none
          "anon-001" "T").2 :=
  (pipeline_requests_from_deidentified_only redactAllServices {}
      "John Smith, 45M, chest pain" "Jane Doe, fever" "anon-001" "T"
      (by decide) (by decide)).2.2.2 rfl

/-! ## C6 — validation is always produced and never blocks the result -/

/-- C6: with guardrails enabled, every successful pipeline invocation
returns the validation outcome of the final note — the safety flag, the
violation count and the formatted report (present even when zero
violations are found) — and the result, note included, is returned
whatever that outcome is: a critical violation (is_safe = false) never
raises an error or prevents the note from being returned. -/
theorem guardrail_result_always_returned (env : ExternalServices)
    (cfg : ScribeConfig) (p : String) (patientId now : String)
    (hg : cfg.enableGuardrails = true) (hp : promptIsBlank p = false) :
    ∃ r, (callScribe env cfg p none patientId now).1 = Except.ok r ∧
      r.guardrailSafe = (validate_note cfg.validateVitals
        cfg.validateMedications cfg.validateAclsProtocols r.note).1 ∧
      r.guardrailViolationCount = (validate_note cfg.validateVitals
        cfg.validateMedications cfg.validateAclsProtocols r.note).2.length ∧
      r.guardrailReport = some (format_violations (validate_note
        cfg.validateVitals cfg.validateMedications cfg.validateAclsProtocols
        r.note).2) := by
  simp only [callScribe, hp, Bool.false_eq_true, if_false, hg, if_true]
  exact ⟨_, rfl, rfl, rfl, rfl⟩

/-- Witness for C6, with collaborators whose completion endpoint
returns a note carrying an out-of-range heart rate: validation flags
the note, and the result is returned nonetheless. -/
theorem guardrail_result_always_returned_witness :
    ∃ r, (callScribe unsafeNoteServices {} "chest pain" none "anon-001"
        "T").1 = Except.ok r ∧
      r.guardrailSafe = (validate_note true true true r.note).1 ∧
      r.guardrailViolationCount =
        (validate_note true true true r.note).2.length ∧
      r.guardrailReport =
        some (format_violations (validate_note true true true r.note).2) :=
  guardrail_result_always_returned unsafeNoteServices {} "chest pain"
    "anon-001" "T" rfl (by decide)

/-! ## C2 — medication-dose check evaluated at the claimed inputs

The check normalizes a `mcg` dose to mg (dividing by 1000) but compares
it against the raw table value; the fentanyl entry of
`MEDICATION_LIMITS` is 200 with the in-source unit comment `mcg`, so a
250 mcg fentanyl dose is compared as 0.25 against 200 and is **not**
flagged, although it exceeds the documented 200 mcg (0.2 mg) maximum. -/

/-- C2 evaluation: `morphine 20mg` yields exactly the critical morphine
dose violation (20 mg exceeds the 15 mg limit) and makes the note
unsafe, but `fentanyl 250mcg` yields no violation at all and the note
is reported safe. -/
theorem medication_dose_check_eval :
    ((validate_note true true true "morphine 20mg").2.map
        (fun v => (v.rule, v.severity)) =
      [("medication_morphine_dose", "critical")]) ∧
    (validate_note true true true "morphine 20mg").1 = false ∧
    (validate_note true true true "fentanyl 250mcg").2 = [] ∧
    (validate_note true true true "fentanyl 250mcg").1 = true := by
  refine ⟨?_, ?_, ?_, ?_⟩ <;> decide

/-! ## C8 — `wipe` is not run when the pipeline raises

In `cli.main` the call `scribe.wipe()` is the last statement inside the
`try:` block; the `except` handler prints the error and returns 1
without reaching it, so an invocation in which the pipeline raises
never wipes. -/

/-- C8 evaluation: a CLI invocation whose clinical text is
whitespace-only makes the pipeline raise; `main` returns exit code 1
and the wipe call is absent from the events it performed.  On a
successful invocation the wipe call is present, as the final action. -/
theorem cli_wipe_skipped_when_pipeline_raises :
    ((cliMain stubServices {} "   " "anon-001" false false "T" =
        (1, [CliEvent.printedError])) ∧
      CliEvent.calledWipe ∉
        (cliMain stubServices {} "   " "anon-001" false false "T").2) ∧
    (cliMain stubServices {} "chest pain" "anon-001" false false
        "T").2.getLast? = some CliEvent.calledWipe := by
  refine ⟨⟨?_, ?_⟩, ?_⟩ <;> decide

/-! ## C4 — heart-rate check characterization -/

/-- The claim's out-of-range condition: `v < 20` or `v > 250`. -/
def hrOutOfRange (v : Nat) : Bool :=
  decide (v < heart_rate_range.1) || decide (heart_rate_range.2 < v)

theorem hrViolationOf_eq (m : NumMatch) :
    hrViolationOf m =
      if hrOutOfRange m.value then some (mkHrViolation m) else none := by
  unfold hrViolationOf hrOutOfRange
  by_cases h : heart_rate_range.1 ≤ m.value ∧ m.value ≤ heart_rate_range.2
  · rw [if_pos h]
    have hb : (decide (m.value < heart_rate_range.1) ||
        decide (heart_rate_range.2 < m.value)) = false := by
      simp only [heart_rate_range] at h ⊢
      simp only [Bool.or_eq_false_iff, decide_eq_false_iff_not, not_lt]
      omega
    rw [hb]
    rfl
  · rw [if_neg h]
    have hb : (decide (m.value < heart_rate_range.1) ||
        decide (heart_rate_range.2 < m.value)) = true := by
      simp only [heart_rate_range] at h ⊢
      simp only [Bool.or_eq_true, decide_eq_true_eq]
      omega
    rw [hb]
    rfl

theorem filterMap_ite_none {α β : Type} (p : α → Bool) (f : α → β)
    (l : List α) :
    (l.filterMap fun a => if p a then some (f a) else none) =
      (l.filter p).map f := by
  induction l with
  | nil => rfl
  | cons a as ih => by_cases h : p a <;> simp [h, ih]

theorem med_rule_ne_hr (s : String) :
    "medication_" ++ s ++ "_dose" ≠ "vital_signs_heart_rate" := by
  intro h
  have h2 := congrArg String.data h
  rw [String.data_append, String.data_append] at h2
  rw [show ("medication_".data) = 'm' :: "edication_".data from rfl] at h2
  rw [show ("vital_signs_heart_rate".data) =
    'v' :: "ital_signs_heart_rate".data from rfl] at h2
  rw [List.cons_append, List.cons_append] at h2
  injection h2 with hc _
  exact absurd hc (by decide)

theorem proto_rule_ne_hr (s : String) :
    "protocol_" ++ s ≠ "vital_signs_heart_rate" := by
  intro h
  have h2 := congrArg String.data h
  rw [String.data_append] at h2
  rw [show ("protocol_".data) = 'p' :: "rotocol_".data from rfl] at h2
  rw [show ("vital_signs_heart_rate".data) =
    'v' :: "ital_signs_heart_rate".data from rfl] at h2
  rw [List.cons_append] at h2
  injection h2 with hc _
  exact absurd hc (by decide)

theorem check_medications_rule_ne_hr (nd : List Char) :
    ∀ v ∈ check_medications nd,
      (v.rule == "vital_signs_heart_rate") = false := by
  intro v hv
  unfold check_medications at hv
  rw [List.mem_flatten] at hv
  obtain ⟨l, hl, hvl⟩ := hv
  rw [List.mem_map] at hl
  obtain ⟨e, _, rfl⟩ := hl
  rw [List.mem_filterMap] at hvl
  obtain ⟨m, _, hsome⟩ := hvl
  unfold medViolationOf at hsome
  by_cases hd : decLT e.2.1 (medDoseOf m)
  · rw [if_pos hd] at hsome
    injection hsome with hsome
    rw [beq_eq_false_iff_ne, ← hsome]
    exact med_rule_ne_hr e.1
  · rw [if_neg hd] at hsome
    exact absurd hsome (by simp)

theorem check_protocols_rule_ne_hr (nd : List Char) :
    ∀ v ∈ check_protocols nd,
      (v.rule == "vital_signs_heart_rate") = false := by
  intro v hv
  unfold check_protocols at hv
  rw [List.mem_filterMap] at hv
  obtain ⟨p, _, hsome⟩ := hv
  by_cases hs : searchWholeWord p.data nd = true
  · rw [if_pos hs] at hsome
    injection hsome with hsome
    rw [beq_eq_false_iff_ne, ← hsome]
    exact proto_rule_ne_hr _
  · rw [if_neg hs] at hsome
    exact absurd hsome (by simp)

theorem bp_part_rule_ne_hr (nd : List Char) :
    ∀ v ∈ ((reFindAll bpTry nd).map bpViolationsOf).flatten,
      (v.rule == "vital_signs_heart_rate") = false := by
  intro v hv
  rw [List.mem_flatten] at hv
  obtain ⟨l, hl, hvl⟩ := hv
  rw [List.mem_map] at hl
  obtain ⟨m, _, rfl⟩ := hl
  unfold bpViolationsOf at hvl
  rcases List.mem_append.mp hvl with h | h <;>
    [skip; skip] <;>
    · split at h
      · exact absurd h (List.not_mem_nil v)
      · rw [List.mem_singleton] at h
        subst h
        rfl

theorem temp_part_rule_ne_hr (nd : List Char) (lab : List Char) :
    ∀ v ∈ (reFindAll (decNumTry lab) nd).filterMap tempViolationOf,
      (v.rule == "vital_signs_heart_rate") = false := by
  intro v hv
  rw [List.mem_filterMap] at hv
  obtain ⟨m, _, hsome⟩ := hv
  unfold tempViolationOf at hsome
  split at hsome
  · exact absurd hsome (by simp)
  · injection hsome with hsome
    subst hsome
    rfl

/-- C4: for every note (with the vitals sub-check enabled and the other
sub-checks in any state), the heart-rate violations of `validate_note`
are exactly one critical violation per heart-rate mention — a label
pattern match with captured value `v` — with `v < 20` or `v > 250`, and
no violation for in-range mentions; in particular `HR: 260` yields
exactly one critical violation and `HR: 95` yields zero heart-rate
violations. -/
theorem heart_rate_check_characterization (em ep : Bool) (note : String) :
    ((validate_note true em ep note).2.filter
        (fun v => v.rule == "vital_signs_heart_rate") =
      ((hr_matches note.data).filter (fun m => hrOutOfRange m.value)).map
        mkHrViolation) ∧
    (∀ m : NumMatch, (mkHrViolation m).severity = "critical") ∧
    (((validate_note true true true "HR: 260").2.filter
        (fun v => v.severity == "critical")).length = 1) ∧
    ((validate_note true true true "HR: 95").2.filter
        (fun v => v.rule == "vital_signs_heart_rate") = []) := by
  refine ⟨?_, fun m => rfl, by decide, by decide⟩
  unfold validate_note
  simp only [if_true]
  rw [List.filter_append, List.filter_append]
  have hmed : (if em then check_medications note.data else []).filter
      (fun v => v.rule == "vital_signs_heart_rate") = [] := by
    cases em
    · rfl
    · exact List.filter_eq_nil_iff.mpr (by
        intro v hv
        simp only [check_medications_rule_ne_hr note.data v hv,
          Bool.false_eq_true, not_false_eq_true])
  have hpro : (if ep then check_protocols note.data else []).filter
      (fun v => v.rule == "vital_signs_heart_rate") = [] := by
    cases ep
    · rfl
    · exact List.filter_eq_nil_iff.mpr (by
        intro v hv
        simp only [check_protocols_rule_ne_hr note.data v hv,
          Bool.false_eq_true, not_false_eq_true])
  rw [hmed, hpro, List.append_nil, List.append_nil]
  unfold check_vitals
  rw [List.filter_append, List.filter_append]
  have hbp : (((reFindAll bpTry note.data).map bpViolationsOf).flatten).filter
      (fun v => v.rule == "vital_signs_heart_rate") = [] :=
    List.filter_eq_nil_iff.mpr (by
      intro v hv
      simp only [bp_part_rule_ne_hr note.data v hv, Bool.false_eq_true,
        not_false_eq_true])
  have htemp : ((temp_patterns.map (fun lab =>
      (reFindAll (decNumTry lab) note.data).filterMap
        tempViolationOf)).flatten).filter
      (fun v => v.rule == "vital_signs_heart_rate") = [] := by
    apply List.filter_eq_nil_iff.mpr
    intro v hv
    rw [List.mem_flatten] at hv
    obtain ⟨l, hl, hvl⟩ := hv
    rw [List.mem_map] at hl
    obtain ⟨lab, _, rfl⟩ := hl
    simp only [temp_part_rule_ne_hr note.data lab v hvl, Bool.false_eq_true,
      not_false_eq_true]
  rw [hbp, htemp, List.append_nil, List.append_nil]
  have hstep : ∀ lab, (reFindAll (labelNumTry lab) note.data).filterMap
      hrViolationOf =
      ((reFindAll (labelNumTry lab) note.data).filter
        (fun m => hrOutOfRange m.value)).map mkHrViolation := by
    intro lab
    have : (reFindAll (labelNumTry lab) note.data).filterMap hrViolationOf =
        (reFindAll (labelNumTry lab) note.data).filterMap
          (fun m => if hrOutOfRange m.value then some (mkHrViolation m)
            else none) := by
      apply List.filterMap_congr
      intro m _
      exact hrViolationOf_eq m
    rw [this, filterMap_ite_none]
  have hkeep : ∀ (l : List NumMatch),
      (l.map mkHrViolation).filter
        (fun v => v.rule == "vital_signs_heart_rate") = l.map mkHrViolation := by
    intro l
    rw [List.filter_map]
    have : ((fun v => v.rule == "vital_signs_heart_rate") ∘ mkHrViolation) =
        fun _ => true := by
      funext m
      rfl
    rw [this, List.filter_true]
  unfold hr_matches hr_patterns
  simp only [List.map_cons, List.map_nil, List.flatten_cons, List.flatten_nil,
    List.filter_append, List.map_append, List.append_nil, hstep, hkeep]

/-! ## C5 — protocol-mention check characterization -/

/-- A case-insensitive whole-word occurrence of `pat` in `note`: some
slice of `note` equals `pat` up to ASCII case, and the characters
adjacent to the slice (when they exist) are not word characters.  For
patterns that begin and end with word characters — all protocol names
do — this is exactly `re.search` of the `\b<pat>\b` pattern. -/
def WholeWordCIMatch (pat note : List Char) : Prop :=
  ∃ pre mid post, note = pre ++ mid ++ post ∧
    mid.map lowerChar = pat.map lowerChar ∧
    (∀ c, pre.getLast? = some c → isWordChar c = false) ∧
    (∀ c, post.head? = some c → isWordChar c = false)

theorem searchWholeWordAux_eq_true_iff (pat : List Char) (hpat : pat ≠ []) :
    ∀ (s : List Char) (prevW : Bool),
      searchWholeWordAux pat prevW s = true ↔
        ∃ pre mid post, s = pre ++ mid ++ post ∧
          mid.map lowerChar = pat.map lowerChar ∧
          (pre = [] → prevW = false) ∧
          (∀ c, pre.getLast? = some c → isWordChar c = false) ∧
          (∀ c, post.head? = some c → isWordChar c = false) := by
  intro s
  induction s with
  | nil =>
    intro prevW
    constructor
    · intro h; exact absurd h (by simp [searchWholeWordAux])
    · rintro ⟨pre, mid, post, hs, hlow, -, -, -⟩
      obtain ⟨hpremid, hpost⟩ := List.append_eq_nil.mp hs.symm
      obtain ⟨hpre, hmid⟩ := List.append_eq_nil.mp hpremid
      subst hmid
      rw [List.map_nil] at hlow
      exact absurd (List.map_eq_nil_iff.mp hlow.symm) hpat
  | cons c cs ih =>
    intro prevW
    rw [searchWholeWordAux, Bool.or_eq_true]
    constructor
    · rintro (hA | hrec)
      · rw [Bool.and_eq_true] at hA
        obtain ⟨hprev, hmatch⟩ := hA
        have hprev' : prevW = false := by
          revert hprev; cases prevW <;> simp
        cases hm : matchCIAt pat (c :: cs) with
        | none => rw [hm] at hmatch; exact absurd hmatch (by simp)
        | some pr =>
          obtain ⟨m, rest⟩ := pr
          rw [hm] at hmatch
          obtain ⟨hseq, hlow⟩ := (matchCIAt_eq_some_iff pat (c :: cs) m rest).mp hm
          refine ⟨[], m, rest, by simpa using hseq, hlow, fun _ => hprev',
            by simp, ?_⟩
          intro r hr
          cases rest with
          | nil => exact absurd hr (by simp)
          | cons r0 rs =>
            rw [List.head?_cons] at hr
            injection hr with hr
            subst hr
            simpa using hmatch
      · obtain ⟨pre, mid, post, hs, hlow, hpre0, hlast, hhead⟩ :=
          (ih (isWordChar c)).mp hrec
        refine ⟨c :: pre, mid, post,
          by rw [List.cons_append, List.cons_append, hs], hlow,
          by simp, ?_, hhead⟩
        intro d hd
        cases pre with
        | nil =>
          rw [List.getLast?_singleton] at hd
          injection hd with hd
          subst hd
          exact hpre0 rfl
        | cons p0 ps =>
          rw [List.getLast?_cons_cons] at hd
          exact hlast d hd
    · rintro ⟨pre, mid, post, hs, hlow, hpre0, hlast, hhead⟩
      cases pre with
      | nil =>
        left
        rw [Bool.and_eq_true]
        refine ⟨by rw [hpre0 rfl]; rfl, ?_⟩
        rw [List.nil_append] at hs
        have hm : matchCIAt pat (c :: cs) = some (mid, post) :=
          (matchCIAt_eq_some_iff pat (c :: cs) mid post).mpr ⟨hs, hlow⟩
        rw [hm]
        cases post with
        | nil => rfl
        | cons r0 rs =>
          show (!isWordChar r0) = true
          rw [hhead r0 (by rw [List.head?_cons])]
          rfl
      | cons p0 ps =>
        right
        rw [List.cons_append, List.cons_append] at hs
        injection hs with h1 h2
        subst h1
        apply (ih (isWordChar c)).mpr
        refine ⟨ps, mid, post, h2, hlow, ?_, ?_, hhead⟩
        · intro hps
          subst hps
          exact hlast c (List.getLast?_singleton c)
        · intro d hd
          cases ps with
          | nil => exact absurd hd (by simp)
          | cons q qs =>
            exact hlast d (by rw [List.getLast?_cons_cons]; exact hd)

theorem searchWholeWord_eq_true_iff (pat : List Char) (hpat : pat ≠ [])
    (note : List Char) :
    searchWholeWord pat note = true ↔ WholeWordCIMatch pat note := by
  unfold searchWholeWord WholeWordCIMatch
  rw [searchWholeWordAux_eq_true_iff pat hpat note false]
  constructor
  · rintro ⟨pre, mid, post, h1, h2, -, h4, h5⟩
    exact ⟨pre, mid, post, h1, h2, h4, h5⟩
  · rintro ⟨pre, mid, post, h1, h2, h4, h5⟩
    exact ⟨pre, mid, post, h1, h2, fun _ => rfl, h4, h5⟩

theorem protocolViolation_mem_check_protocols_iff (p : String)
    (hp : p ∈ CRITICAL_PROTOCOLS) (nd : List Char) :
    protocolViolation p ∈ check_protocols nd ↔
      searchWholeWord p.data nd = true := by
  unfold check_protocols
  rw [List.mem_filterMap]
  constructor
  · rintro ⟨q, hq, hsome⟩
    by_cases hs : searchWholeWord q.data nd = true
    · rw [if_pos hs] at hsome
      injection hsome with hsome
      have hqp : q = p := congrArg GuardrailViolation.location hsome
      subst hqp
      exact hs
    · rw [if_neg hs] at hsome
      exact absurd hsome (by simp)
  · intro hs
    exact ⟨p, hp, by rw [if_pos hs]⟩

/-- C5: the protocol-mention check is case-insensitive and whole-word
over the fixed protocol list — a protocol violation is produced exactly
when the note has a case-insensitive whole-word occurrence of the
protocol name — every violation it produces has severity `warning`,
a note containing only `aclss` produces no violation at all, and the
note `ACLS protocol initiated` produces exactly one ACLS violation. -/
theorem protocol_check_characterization (note : String) :
    (∀ v ∈ check_protocols note.data, v.severity = "warning") ∧
    (∀ p ∈ CRITICAL_PROTOCOLS,
      (protocolViolation p ∈ check_protocols note.data ↔
        WholeWordCIMatch p.data note.data)) ∧
    ((validate_note true true true "aclss").2 = []) ∧
    (((validate_note true true true "ACLS protocol initiated").2.filter
        (fun v => v.rule == "protocol_acls")).length = 1) := by
  refine ⟨?_, ?_, by decide, by decide⟩
  · intro v hv
    unfold check_protocols at hv
    rw [List.mem_filterMap] at hv
    obtain ⟨q, -, hsome⟩ := hv
    split at hsome
    · injection hsome with hsome
      rw [← hsome]
      rfl
    · exact absurd hsome (by simp)
  · intro p hp
    rw [protocolViolation_mem_check_protocols_iff p hp note.data]
    have hne : p.data ≠ [] := by
      have : ∀ q ∈ CRITICAL_PROTOCOLS, q.data ≠ [] := by decide
      exact this p hp
    exact searchWholeWord_eq_true_iff p.data hne note.data

/-- Witness for C5, instantiating the membership characterization and
the severity clause at the ACLS protocol and the note
`ACLS protocol initiated`. -/
theorem protocol_check_characterization_witness :
    (protocolViolation "ACLS").severity = "warning" ∧
    (protocolViolation "ACLS" ∈ check_protocols "ACLS protocol initiated".data ↔
      WholeWordCIMatch "ACLS".data "ACLS protocol initiated".data) :=
  ⟨(protocol_check_characterization "ACLS protocol initiated").1
      (protocolViolation "ACLS") (by decide),
   (protocol_check_characterization "ACLS protocol initiated").2.1 "ACLS"
      (by decide)⟩
